import Mathlib

/-!
InpOut user-mode library: driver bring-up and port-I/O dispatch.

A shallow embedding of `InpOut/inpout32drv.cpp` and `InpOut/osversion.cpp`.

* The process-wide globals (`hdriver`, `sysver`, `path`) are fields of `State`.
* The operating system and the kernel driver are external: they are a record
  `Win32 σ` of functions over an arbitrary state type `σ`.  Every call the
  library makes is appended to `State.trace`, so that "no request is issued"
  and "no handle is released" are statements about the trace.
* Machine integers are `Nat`/`Int` with explicit reductions modulo `2^w`.
* `OutputDebugString` and the formatting of debug messages have no effect on
  the modelled state and are left out.
-/

namespace InpOut

/-! ## Values -/

/-- Win32 `HANDLE`, as the integer value of the pointer. -/
abbrev HANDLE := Int

/-- The null handle (the initial value of `hdriver`). -/
def NULL : HANDLE := 0

/-- Win32 `INVALID_HANDLE_VALUE`, that is `(HANDLE)-1`: what `CreateFile` returns on failure. -/
def INVALID_HANDLE_VALUE : HANDLE := -1

/-- Request codes of the device-control protocol (declared in `hwinterfacedrv.h`). -/
inductive IoctlCode
  | IOCTL_READ_PORT_UCHAR
  | IOCTL_WRITE_PORT_UCHAR
  | IOCTL_READ_PORT_USHORT
  | IOCTL_WRITE_PORT_USHORT
  | IOCTL_READ_PORT_ULONG
  | IOCTL_WRITE_PORT_ULONG
  | IOCTL_WINIO_MAPPHYSTOLIN
  | IOCTL_WINIO_UNMAPPHYSADDR
deriving DecidableEq, Repr

/-- Identifiers of the two embedded driver images (declared in `resource.h`). -/
inductive ResourceId
  | IDR_INPOUT32
  | IDR_INPOUTX64
deriving DecidableEq, Repr

/-- The structure exchanged with the driver by the map and unmap requests
(declared in `hwinterfacedrv.h`); the four fields are the ones the library uses. -/
structure tagPhys32Struct where
  PhysicalMemoryHandle : Nat
  dwPhysMemSizeInBytes : Nat
  pvPhysAddress : Nat
  pvPhysMemLin : Nat
deriving DecidableEq, Repr

/-- A `PVOID` argument: either a plain pointer value, or the address of a local
`PVOID` variable (given with what that variable holds, `none` when it was never written). -/
inductive PVOID
  | value (v : Nat)
  | addressOf (slot : Option Nat)
deriving DecidableEq, Repr

def ERROR_SUCCESS : Int := 0
def ERROR_ACCESS_DENIED : Nat := 5
def SC_MANAGER_ALL_ACCESS : Nat := 0xF003F
def SERVICE_ALL_ACCESS : Nat := 0xF01FF
def GENERIC_READ : Nat := 0x80000000
def GENERIC_WRITE : Nat := 0x40000000
def GENERIC_EXECUTE : Nat := 0x20000000
def CREATE_ALWAYS : Nat := 2
def OPEN_EXISTING : Nat := 3
def FILE_ATTRIBUTE_NORMAL : Nat := 0x80
def VER_PLATFORM_WIN32_WINDOWS : Nat := 1
def VER_PLATFORM_WIN32_NT : Nat := 2

def DRIVERNAMEx64 : String := "inpoutx64"
def DRIVERNAMEi386 : String := "inpout32"

/-- The preprocessor symbols that select the target architecture of the build. -/
structure Build where
  M_IX86 : Bool
  M_X64 : Bool
deriving DecidableEq, Repr

/-- Width of a pointer in bits for the build. -/
def Build.ptrBits (b : Build) : Nat := if b.M_X64 then 64 else 32

/-! ## The calls the library makes -/

/-- One call into the operating system, the C runtime port intrinsics, or
process memory, with the arguments that matter. -/
inductive Call
  | GetVersionEx (ex : Bool)
  | IsWow64Process
  | Wow64DisableWow64FsRedirection
  | Wow64RevertWow64FsRedirection (arg : PVOID)
  | CreateFile (name : String) (access : Nat) (disposition : Nat) (flags : Nat)
  | WriteFile (h : HANDLE) (data : List Nat) (size : Nat)
  | CloseHandle (h : HANDLE)
  | DeviceIoControl (h : HANDLE) (code : IoctlCode) (inBuffer : List Nat) (nOut : Nat)
  | DeviceIoControlPhys (h : HANDLE) (code : IoctlCode) (inBuffer : tagPhys32Struct) (hasOut : Bool)
  | outp (port : Nat) (data : Int)
  | inp (port : Nat)
  | GetSystemDirectory
  | FindResource (id : ResourceId)
  | LoadResource (hResource : Nat)
  | LockResource (hGlobal : Nat)
  | SizeofResource (hResource : Nat)
  | OpenSCManager (access : Nat)
  | GetLastError
  | OpenService (mgr : Nat) (name : String) (access : Nat)
  | StartService (ser : Nat)
  | CreateService (mgr : Nat) (name : String) (binaryPath : String)
  | CloseServiceHandle (h : Option Nat)
  | load32 (addr : Nat)
  | store32 (addr : Nat) (val : Nat)
deriving DecidableEq, Repr

/-- The external world: the operating system, its service-control layer, the
kernel driver behind `DeviceIoControl`, the port instructions and the process
memory, as functions over a state `σ` of that world.  Handles of the
service-control layer and of resources are `Nat`, `0` being the null handle. -/
structure Win32 (σ : Type) where
  /-- `GetVersionEx`: `dwPlatformId` when the call succeeds; the flag says
  whether the extended structure size was passed. -/
  GetVersionEx : Bool → σ → Option Nat
  /-- The optional entry point `IsWow64Process`, when resolved: the result of the call,
  and the value found in the flag variable afterwards (it holds `FALSE` before the call). -/
  fnIsWow64Process : Option (σ → Bool × Bool)
  /-- `Wow64DisableWow64FsRedirection`: result and the token stored through the pointer, if any. -/
  fnWow64Disable : σ → (Bool × Option Nat) × σ
  /-- `Wow64RevertWow64FsRedirection`. -/
  fnWow64Revert : PVOID → σ → Bool × σ
  /-- `CreateFile name access 0 NULL disposition flags NULL`. -/
  CreateFile : String → Nat → Nat → Nat → σ → HANDLE × σ
  /-- `WriteFile h data size`. -/
  WriteFile : HANDLE → List Nat → Nat → σ → σ
  CloseHandle : HANDLE → σ → σ
  /-- `DeviceIoControl h code inBuffer nOutBufferSize` on a byte buffer: the
  result, and the bytes the driver stored at the start of the output buffer. -/
  DeviceIoControl : HANDLE → IoctlCode → List Nat → Nat → σ → (Bool × List Nat) × σ
  /-- `DeviceIoControl` on a `tagPhys32Struct`; the flag says whether an output
  buffer was passed; the structure returned is what the driver stored in it. -/
  DeviceIoControlPhys : HANDLE → IoctlCode → tagPhys32Struct → Bool → σ →
    (Bool × Option tagPhys32Struct) × σ
  /-- The port instruction behind `_outp`. -/
  outp : Nat → Int → σ → σ
  /-- The port instruction behind `_inp`. -/
  inp : Nat → σ → Int × σ
  GetSystemDirectory : σ → String
  FindResource : ResourceId → σ → Nat
  LoadResource : Nat → σ → Nat
  /-- `LockResource`: the bytes of the resource, `none` for a null pointer. -/
  LockResource : Nat → σ → Option (List Nat)
  SizeofResource : Nat → σ → Nat
  OpenSCManager : Nat → σ → Nat × σ
  GetLastError : σ → Nat
  OpenService : Nat → String → Nat → σ → Nat × σ
  StartService : Nat → σ → Bool × σ
  /-- `CreateService mgr name name SERVICE_ALL_ACCESS SERVICE_KERNEL_DRIVER
  SERVICE_AUTO_START SERVICE_ERROR_NORMAL binaryPath ...`. -/
  CreateService : Nat → String → String → σ → Nat × σ
  /-- `CloseServiceHandle`; `none` stands for a local that was never assigned. -/
  CloseServiceHandle : Option Nat → σ → σ
  /-- Read of the 32-bit word at a linear address of the process. -/
  load32 : Nat → σ → Nat
  /-- Write of the 32-bit word at a linear address of the process. -/
  store32 : Nat → Nat → σ → σ

/-- The globals of the library, the state of the external world, and the
calls made so far (oldest first). -/
structure State (σ : Type) where
  hdriver : HANDLE
  sysver : Int
  path : String
  os : σ
  trace : List Call

/-- Record a call and the state in which it leaves the external world. -/
def State.call {σ : Type} (s : State σ) (c : Call) (w : σ) : State σ :=
  { s with os := w, trace := s.trace ++ [c] }

/-- The state of a freshly loaded library: `hdriver = NULL`, `sysver = 0`. -/
def State.init {σ : Type} (w : σ) : State σ :=
  { hdriver := NULL, sysver := 0, path := "", os := w, trace := [] }

/-! ## osversion.cpp -/

/-- `SystemVersion`: 2 for the NT family, 1 for the 9x family, 0 otherwise. -/
def SystemVersion {σ : Type} (os : Win32 σ) (s : State σ) : Int × State σ :=
  let classify (p : Nat) : Int :=
    if p = VER_PLATFORM_WIN32_NT then 2
    else if p = VER_PLATFORM_WIN32_WINDOWS then 1
    else 0
  let s1 := s.call (.GetVersionEx true) s.os
  match os.GetVersionEx true s.os with
  | some p => (classify p, s1)
  | none =>
    let s2 := s1.call (.GetVersionEx false) s1.os
    match os.GetVersionEx false s1.os with
    | some p => (classify p, s2)
    | none => (0, s2)

/-- `IsXP64Bit`. -/
def IsXP64Bit {σ : Type} (b : Build) (os : Win32 σ) (s : State σ) : Bool × State σ :=
  if b.M_X64 then (true, s)
  else
    match os.fnIsWow64Process with
    | some f =>
      let r := f s.os
      let s := s.call .IsWow64Process s.os
      -- the result of the call is tested but not acted on
      (r.2, s)
    | none => (false, s)

/-- `DisableWOW64(&OldValue)`: the result and the value stored in `OldValue`, if any. -/
def DisableWOW64 {σ : Type} (b : Build) (os : Win32 σ) (s : State σ) :
    (Bool × Option Nat) × State σ :=
  if b.M_X64 then ((true, none), s)
  else
    let r := os.fnWow64Disable s.os
    (r.1, s.call .Wow64DisableWow64FsRedirection r.2)

/-- `RevertWOW64(&OldValue)`: the pointer to the variable is what is handed to
the revert entry point; `oldValue` is what the variable holds. -/
def RevertWOW64 {σ : Type} (b : Build) (os : Win32 σ) (oldValue : Option Nat) (s : State σ) :
    Bool × State σ :=
  if b.M_X64 then (true, s)
  else
    let r := os.fnWow64Revert (.addressOf oldValue) s.os
    (r.1, s.call (.Wow64RevertWow64FsRedirection (.addressOf oldValue)) r.2)

/-! ## inpout32drv.cpp: driver lifecycle -/

/-- `Closedriver`. -/
def Closedriver {σ : Type} (os : Win32 σ) (s : State σ) : State σ :=
  if s.hdriver ≠ NULL then
    let s := s.call (.CloseHandle s.hdriver) (os.CloseHandle s.hdriver s.os)
    { s with hdriver := NULL }
  else s

/-- `start`. -/
def start {σ : Type} (os : Win32 σ) (pszDriver : String) (s : State σ) : Int × State σ :=
  let m := os.OpenSCManager SC_MANAGER_ALL_ACCESS s.os
  let s := s.call (.OpenSCManager SC_MANAGER_ALL_ACCESS) m.2
  if m.1 = 0 then
    let e := os.GetLastError s.os
    let s := s.call .GetLastError s.os
    if e = ERROR_ACCESS_DENIED then
      let m2 := os.OpenSCManager GENERIC_READ s.os
      let s := s.call (.OpenSCManager GENERIC_READ) m2.2
      let ser := os.OpenService m2.1 pszDriver GENERIC_EXECUTE s.os
      let s := s.call (.OpenService m2.1 pszDriver GENERIC_EXECUTE) ser.2
      if ser.1 ≠ 0 then
        let st := os.StartService ser.1 s.os
        let s := s.call (.StartService ser.1) st.2
        if !st.1 then
          let s := s.call (.CloseServiceHandle (some ser.1)) (os.CloseServiceHandle (some ser.1) s.os)
          (4, s)
        else (1, s)
      else (1, s)
    else (1, s)
  else
    let ser := os.OpenService m.1 pszDriver SERVICE_ALL_ACCESS s.os
    let s := s.call (.OpenService m.1 pszDriver SERVICE_ALL_ACCESS) ser.2
    if ser.1 ≠ 0 then
      let st := os.StartService ser.1 s.os
      let s := s.call (.StartService ser.1) st.2
      if !st.1 then
        let s := s.call (.CloseServiceHandle (some ser.1)) (os.CloseServiceHandle (some ser.1) s.os)
        (3, s)
      else
        let s := s.call (.CloseServiceHandle (some ser.1)) (os.CloseServiceHandle (some ser.1) s.os)
        (0, s)
    else (1, s)

/-- The tail shared by the text of `inst32` and `inst64`: open the service
control manager with full access and register the service. -/
def registerService {σ : Type} (os : Win32 σ) (name szDriverSys : String) (s : State σ) :
    Int × State σ :=
  let m := os.OpenSCManager SC_MANAGER_ALL_ACCESS s.os
  let s := s.call (.OpenSCManager SC_MANAGER_ALL_ACCESS) m.2
  if m.1 = 0 then
    let e := os.GetLastError s.os
    let s := s.call .GetLastError s.os
    if e = ERROR_ACCESS_DENIED then (5, s)
    else
      -- `Ser` was never assigned on this path
      let s := s.call (.CloseServiceHandle none) (os.CloseServiceHandle none s.os)
      let s := s.call (.CloseServiceHandle (some m.1)) (os.CloseServiceHandle (some m.1) s.os)
      (0, s)
  else
    let szFullPath := "System32\\Drivers\\" ++ szDriverSys
    let ser := os.CreateService m.1 name szFullPath s.os
    let s := s.call (.CreateService m.1 name szFullPath) ser.2
    let s := s.call (.CloseServiceHandle (some ser.1)) (os.CloseServiceHandle (some ser.1) s.os)
    let s := s.call (.CloseServiceHandle (some m.1)) (os.CloseServiceHandle (some m.1) s.os)
    (0, s)

/-- `inst32`. -/
def inst32 {σ : Type} (os : Win32 σ) (s : State σ) : Int × State σ :=
  let szDriverSys := DRIVERNAMEi386 ++ ".sys"
  let s := { s.call .GetSystemDirectory s.os with path := os.GetSystemDirectory s.os }
  let hResource := os.FindResource .IDR_INPOUT32 s.os
  let s := s.call (.FindResource .IDR_INPOUT32) s.os
  let s :=
    if hResource ≠ 0 then
      let binGlob := os.LoadResource hResource s.os
      let s := s.call (.LoadResource hResource) s.os
      if binGlob ≠ 0 then
        let s := s.call (.LockResource binGlob) s.os
        match os.LockResource binGlob s.os with
        | some binData =>
          let s := { s with path := s.path ++ "\\Drivers\\" ++ szDriverSys }
          let file := os.CreateFile s.path GENERIC_WRITE CREATE_ALWAYS 0 s.os
          let s := s.call (.CreateFile s.path GENERIC_WRITE CREATE_ALWAYS 0) file.2
          if file.1 ≠ 0 ∧ file.1 ≠ INVALID_HANDLE_VALUE then
            let size := os.SizeofResource hResource s.os
            let s := s.call (.SizeofResource hResource) s.os
            let s := s.call (.WriteFile file.1 binData size) (os.WriteFile file.1 binData size s.os)
            s.call (.CloseHandle file.1) (os.CloseHandle file.1 s.os)
          else s
        | none => s
      else s
    else s
  registerService os DRIVERNAMEi386 szDriverSys s

/-- `inst64`. -/
def inst64 {σ : Type} (b : Build) (os : Win32 σ) (s : State σ) : Int × State σ :=
  let szDriverSys := DRIVERNAMEx64 ++ ".sys"
  let s := { s.call .GetSystemDirectory s.os with path := os.GetSystemDirectory s.os }
  let hResource := os.FindResource .IDR_INPOUTX64 s.os
  let s := s.call (.FindResource .IDR_INPOUTX64) s.os
  let s :=
    if hResource ≠ 0 then
      let binGlob := os.LoadResource hResource s.os
      let s := s.call (.LoadResource hResource) s.os
      if binGlob ≠ 0 then
        let s := s.call (.LockResource binGlob) s.os
        match os.LockResource binGlob s.os with
        | some binData =>
          let s := { s with path := s.path ++ "\\Drivers\\" ++ szDriverSys }
          let d := DisableWOW64 b os s
          let OldValue := d.1.2
          let s := d.2
          let file := os.CreateFile s.path GENERIC_WRITE CREATE_ALWAYS 0 s.os
          let s := s.call (.CreateFile s.path GENERIC_WRITE CREATE_ALWAYS 0) file.2
          let s :=
            if file.1 ≠ 0 ∧ file.1 ≠ INVALID_HANDLE_VALUE then
              let size := os.SizeofResource hResource s.os
              let s := s.call (.SizeofResource hResource) s.os
              let s := s.call (.WriteFile file.1 binData size) (os.WriteFile file.1 binData size s.os)
              s.call (.CloseHandle file.1) (os.CloseHandle file.1 s.os)
            else s
          (RevertWOW64 b os OldValue s).2
        | none => s
      else s
    else s
  registerService os DRIVERNAMEx64 szDriverSys s

/-- `Opendriver`. -/
def Opendriver {σ : Type} (b : Build) (os : Win32 σ) (bX64 : Bool) (s : State σ) :
    Int × State σ :=
  let name := if bX64 then DRIVERNAMEx64 else DRIVERNAMEi386
  let szFileName := "\\\\.\\" ++ name
  let h := os.CreateFile szFileName (GENERIC_READ ||| GENERIC_WRITE) OPEN_EXISTING
    FILE_ATTRIBUTE_NORMAL s.os
  let s := s.call (.CreateFile szFileName (GENERIC_READ ||| GENERIC_WRITE) OPEN_EXISTING
    FILE_ATTRIBUTE_NORMAL) h.2
  let s := { s with hdriver := h.1 }
  if s.hdriver = INVALID_HANDLE_VALUE then
    let r := start os name s
    let s := r.2
    if r.1 ≠ 0 then
      let s := if bX64 then (inst64 b os s).2 else (inst32 os s).2
      let r2 := start os name s
      let nResult := r2.1
      let s := r2.2
      if nResult = ERROR_SUCCESS then
        let h2 := os.CreateFile szFileName (GENERIC_READ ||| GENERIC_WRITE) OPEN_EXISTING
          FILE_ATTRIBUTE_NORMAL s.os
        let s := s.call (.CreateFile szFileName (GENERIC_READ ||| GENERIC_WRITE) OPEN_EXISTING
          FILE_ATTRIBUTE_NORMAL) h2.2
        let s := { s with hdriver := h2.1 }
        if s.hdriver ≠ INVALID_HANDLE_VALUE then (0, s) else (1, s)
      else (1, s)
    else (1, s)
  else (0, s)

/-- `IsInpOutDriverOpen`. -/
def IsInpOutDriverOpen {σ : Type} (os : Win32 σ) (s : State σ) : Bool × State σ :=
  let v := SystemVersion os s
  let s : State σ := { v.2 with sysver := v.1 }
  if s.sysver = 2 then
    if s.hdriver ≠ INVALID_HANDLE_VALUE ∧ s.hdriver ≠ NULL then (true, s) else (false, s)
  else if s.sysver = 1 then (true, s)
  else (false, s)

/-- `DllMain`, for the two reasons it handles; `attach` selects `DLL_PROCESS_ATTACH`,
otherwise the reason is `DLL_PROCESS_DETACH`. -/
def DllMain {σ : Type} (b : Build) (os : Win32 σ) (attach : Bool) (s : State σ) : State σ :=
  let x := IsXP64Bit b os s
  let s := x.2
  if attach then
    let v := SystemVersion os s
    let s : State σ := { v.2 with sysver := v.1 }
    if s.sysver = 2 then (Opendriver b os x.1 s).2 else s
  else
    if s.sysver = 2 then Closedriver os s else s

/-! ## inpout32drv.cpp: port and memory operations -/

/-- `LOWORD`: the low 16 bits of a value. -/
def LOWORD (l : Int) : Nat := (l % 65536).toNat

/-- `LOBYTE`: the low 8 bits of a value. -/
def LOBYTE (w : Int) : Nat := (w % 256).toNat

/-- Store of an `unsigned short` at byte offset `off` of a byte buffer (little-endian). -/
def store16 (buf : List Nat) (off : Nat) (v : Nat) : List Nat :=
  (buf.set off (v % 256)).set (off + 1) (v / 256 % 256)

/-- Store of an `unsigned long` (32 bits) at byte offset `off` of a byte buffer (little-endian). -/
def store32le (buf : List Nat) (off : Nat) (v : Nat) : List Nat :=
  (((buf.set off (v % 256)).set (off + 1) (v / 256 % 256)).set (off + 2)
    (v / 65536 % 256)).set (off + 3) (v / 16777216 % 256)

/-- Load of an `unsigned short` from the start of a byte buffer. -/
def load16 (buf : List Nat) : Nat := buf.getD 0 0 % 256 + 256 * (buf.getD 1 0 % 256)

/-- Load of an `unsigned long` (32 bits) from the start of a byte buffer. -/
def load32le (buf : List Nat) : Nat :=
  buf.getD 0 0 % 256 + 256 * (buf.getD 1 0 % 256) + 65536 * (buf.getD 2 0 % 256)
    + 16777216 * (buf.getD 3 0 % 256)

/-- The caller's buffer after a device-control call that was given it as output
buffer of size `n`: the bytes the driver stored overwrite the start of the buffer. -/
def writeBack (buf : List Nat) (out : List Nat) (n : Nat) : List Nat :=
  let o := (out.take n).take buf.length
  o ++ buf.drop o.length

/-- `Out32`. -/
def Out32 {σ : Type} (b : Build) (os : Win32 σ) (PortAddress data : Int) (s : State σ) :
    State σ :=
  if s.sysver = 1 then
    if b.M_IX86 then
      s.call (.outp (LOWORD PortAddress) data) (os.outp (LOWORD PortAddress) data s.os)
    else s
  else if s.sysver = 2 then
    let Buffer : List Nat := [0, 0, 0]
    let Buffer := store16 Buffer 0 (LOWORD PortAddress)
    let Buffer := Buffer.set 2 (LOBYTE data)
    let r := os.DeviceIoControl s.hdriver .IOCTL_WRITE_PORT_UCHAR (Buffer.take 3) 0 s.os
    s.call (.DeviceIoControl s.hdriver .IOCTL_WRITE_PORT_UCHAR (Buffer.take 3) 0) r.2
  else s

/-- `Inp32`. -/
def Inp32 {σ : Type} (b : Build) (os : Win32 σ) (PortAddress : Int) (s : State σ) :
    Int × State σ :=
  if s.sysver = 1 then
    if b.M_IX86 then
      let r := os.inp (LOWORD PortAddress) s.os
      let s := s.call (.inp (LOWORD PortAddress)) r.2
      ((LOBYTE r.1 : Int), s)
    else (0, s)
  else if s.sysver = 2 then
    let Buffer : List Nat := [0, 0, 0]
    let Buffer := store16 Buffer 0 (LOWORD PortAddress)
    let Buffer := Buffer.set 2 0
    let r := os.DeviceIoControl s.hdriver .IOCTL_READ_PORT_UCHAR (Buffer.take 2) 1 s.os
    let s := s.call (.DeviceIoControl s.hdriver .IOCTL_READ_PORT_UCHAR (Buffer.take 2) 1) r.2
    let Buffer := writeBack Buffer r.1.2 1
    -- `if (error==0)`: the error code is fetched for the debug message only
    let s := if !r.1.1 then s.call .GetLastError s.os else s
    let ucRes := Buffer.getD 0 0 % 256
    ((ucRes : Int), s)
  else (0, s)

/-- `DlPortReadPortUchar`. -/
def DlPortReadPortUchar {σ : Type} (b : Build) (os : Win32 σ) (port : Nat) (s : State σ) :
    Nat × State σ :=
  if s.sysver = 1 then
    if b.M_IX86 then
      let r := os.inp (port % 65536) s.os
      let s := s.call (.inp (port % 65536)) r.2
      (LOBYTE r.1, s)
    else (0, s)
  else if s.sysver = 2 then
    let Buffer : List Nat := [0, 0, 0]
    let Buffer := store16 Buffer 0 port
    let Buffer := Buffer.set 2 0
    let r := os.DeviceIoControl s.hdriver .IOCTL_READ_PORT_UCHAR (Buffer.take 3) 3 s.os
    let s := s.call (.DeviceIoControl s.hdriver .IOCTL_READ_PORT_UCHAR (Buffer.take 3) 3) r.2
    let Buffer := writeBack Buffer r.1.2 3
    (Buffer.getD 0 0 % 256, s)
  else (0, s)

/-- `DlPortWritePortUchar`. -/
def DlPortWritePortUchar {σ : Type} (b : Build) (os : Win32 σ) (port Value : Nat)
    (s : State σ) : State σ :=
  if s.sysver = 1 then
    if b.M_IX86 then
      s.call (.outp (port % 65536) (Value % 256 : Nat))
        (os.outp (port % 65536) (Value % 256 : Nat) s.os)
    else s
  else if s.sysver = 2 then
    let Buffer : List Nat := [0, 0, 0]
    let Buffer := store16 Buffer 0 port
    let Buffer := Buffer.set 2 (Value % 256)
    let r := os.DeviceIoControl s.hdriver .IOCTL_WRITE_PORT_UCHAR (Buffer.take 3) 0 s.os
    s.call (.DeviceIoControl s.hdriver .IOCTL_WRITE_PORT_UCHAR (Buffer.take 3) 0) r.2
  else s

/-- `DlPortReadPortUshort`. -/
def DlPortReadPortUshort {σ : Type} (os : Win32 σ) (port : Nat) (s : State σ) :
    Nat × State σ :=
  if s.sysver ≠ 2 then (0, s)
  else
    let sPort : List Nat := store16 [0, 0] 0 port
    let r := os.DeviceIoControl s.hdriver .IOCTL_READ_PORT_USHORT (sPort.take 2) 2 s.os
    let s := s.call (.DeviceIoControl s.hdriver .IOCTL_READ_PORT_USHORT (sPort.take 2) 2) r.2
    let sPort := writeBack sPort r.1.2 2
    (load16 sPort, s)

/-- `DlPortWritePortUshort`. -/
def DlPortWritePortUshort {σ : Type} (os : Win32 σ) (port Value : Nat) (s : State σ) :
    State σ :=
  if s.sysver ≠ 2 then s
  else
    let Buffer : List Nat := [0, 0, 0, 0, 0]
    let Buffer := store16 Buffer 0 (LOWORD port)
    let Buffer := store16 Buffer 2 Value
    let r := os.DeviceIoControl s.hdriver .IOCTL_WRITE_PORT_USHORT (Buffer.take 5) 0 s.os
    s.call (.DeviceIoControl s.hdriver .IOCTL_WRITE_PORT_USHORT (Buffer.take 5) 0) r.2

/-- `DlPortReadPortUlong`. -/
def DlPortReadPortUlong {σ : Type} (os : Win32 σ) (port : Nat) (s : State σ) :
    Nat × State σ :=
  if s.sysver ≠ 2 then (0, s)
  else
    let lPort : List Nat := store32le [0, 0, 0, 0] 0 port
    let r := os.DeviceIoControl s.hdriver .IOCTL_READ_PORT_ULONG (lPort.take 4) 4 s.os
    let s := s.call (.DeviceIoControl s.hdriver .IOCTL_READ_PORT_ULONG (lPort.take 4) 4) r.2
    let lPort := writeBack lPort r.1.2 4
    (load32le lPort, s)

/-- `DlPortWritePortUlong`. -/
def DlPortWritePortUlong {σ : Type} (os : Win32 σ) (port Value : Nat) (s : State σ) :
    State σ :=
  if s.sysver ≠ 2 then s
  else
    let Buffer : List Nat := [0, 0, 0, 0, 0, 0, 0, 0]
    let Buffer := store32le Buffer 0 port
    let Buffer := store32le Buffer 4 Value
    let r := os.DeviceIoControl s.hdriver .IOCTL_WRITE_PORT_ULONG (Buffer.take 8) 0 s.os
    s.call (.DeviceIoControl s.hdriver .IOCTL_WRITE_PORT_ULONG (Buffer.take 8) 0) r.2

/-- `MapPhysToLin`: the linear address returned (`0` for the null pointer), the
value stored through `pPhysicalMemoryHandle` (`none` when nothing is stored),
and the new state.  The fields of the local `Phys32Struct` that the code does
not assign before the request are taken as zero. -/
def MapPhysToLin {σ : Type} (b : Build) (os : Win32 σ) (pbPhysAddr dwPhysSize : Nat)
    (s : State σ) : (Nat × Option Nat) × State σ :=
  if s.sysver ≠ 2 then ((0, none), s)
  else
    let Phys32Struct : tagPhys32Struct :=
      { PhysicalMemoryHandle := 0, dwPhysMemSizeInBytes := dwPhysSize,
        pvPhysAddress := pbPhysAddr, pvPhysMemLin := 0 }
    let r := os.DeviceIoControlPhys s.hdriver .IOCTL_WINIO_MAPPHYSTOLIN Phys32Struct true s.os
    let s := s.call (.DeviceIoControlPhys s.hdriver .IOCTL_WINIO_MAPPHYSTOLIN Phys32Struct true) r.2
    let Phys32Struct := r.1.2.getD Phys32Struct
    if !r.1.1 then ((0, none), s)
    else
      let pbLinAddr : Nat :=
        (((Phys32Struct.pvPhysMemLin : Int) + (pbPhysAddr : Int)
          - (Phys32Struct.pvPhysAddress : Int)) % (2 : Int) ^ b.ptrBits).toNat
      ((pbLinAddr, some Phys32Struct.PhysicalMemoryHandle), s)

/-- `UnmapPhysicalMemory`.  The fields of the local `Phys32Struct` that the code
does not assign are taken as zero. -/
def UnmapPhysicalMemory {σ : Type} (os : Win32 σ) (PhysicalMemoryHandle pbLinAddr : Nat)
    (s : State σ) : Bool × State σ :=
  if s.sysver ≠ 2 then (false, s)
  else
    let Phys32Struct : tagPhys32Struct :=
      { PhysicalMemoryHandle := PhysicalMemoryHandle, dwPhysMemSizeInBytes := 0,
        pvPhysAddress := 0, pvPhysMemLin := pbLinAddr }
    let r := os.DeviceIoControlPhys s.hdriver .IOCTL_WINIO_UNMAPPHYSADDR Phys32Struct false s.os
    let s := s.call (.DeviceIoControlPhys s.hdriver .IOCTL_WINIO_UNMAPPHYSADDR Phys32Struct false) r.2
    if !r.1.1 then (false, s) else (true, s)

/-- `GetPhysLong`: the result, the value stored through `pdwPhysVal` (`none`
when nothing is stored), and the new state. -/
def GetPhysLong {σ : Type} (b : Build) (os : Win32 σ) (pbPhysAddr : Nat) (s : State σ) :
    (Bool × Option Nat) × State σ :=
  if s.sysver ≠ 2 then ((false, none), s)
  else
    let m := MapPhysToLin b os pbPhysAddr 4 s
    let pdwLinAddr := m.1.1
    let PhysicalMemoryHandle := m.1.2.getD 0
    let s := m.2
    if pdwLinAddr = 0 then ((false, none), s)
    else
      let v := os.load32 pdwLinAddr s.os
      let s := s.call (.load32 pdwLinAddr) s.os
      let u := UnmapPhysicalMemory os PhysicalMemoryHandle pdwLinAddr s
      ((true, some v), u.2)

/-- `SetPhysLong`. -/
def SetPhysLong {σ : Type} (b : Build) (os : Win32 σ) (pbPhysAddr dwPhysVal : Nat)
    (s : State σ) : Bool × State σ :=
  if s.sysver ≠ 2 then (false, s)
  else
    let m := MapPhysToLin b os pbPhysAddr 4 s
    let pdwLinAddr := m.1.1
    let PhysicalMemoryHandle := m.1.2.getD 0
    let s := m.2
    if pdwLinAddr = 0 then (false, s)
    else
      let s := s.call (.store32 pdwLinAddr (dwPhysVal % 4294967296))
        (os.store32 pdwLinAddr (dwPhysVal % 4294967296) s.os)
      let u := UnmapPhysicalMemory os PhysicalMemoryHandle pdwLinAddr s
      (true, u.2)

/-! ## A simulated operating system and driver stub

A concrete external world used to run the library on explicit inputs: a
service-control layer whose answers are fixed by a few flags, and a driver
stub that keeps one byte per 16-bit port. -/

/-- State of the simulated world. -/
structure Sim where
  /-- What `GetVersionEx` reports as `dwPlatformId` (`none`: the call fails). -/
  platform : Option Nat
  /-- The device object of the driver exists (the driver is running). -/
  deviceUp : Bool
  /-- The service control manager may be opened with full access. -/
  scmFullAccess : Bool
  /-- The service control manager may be opened with read-only access. -/
  scmReadAccess : Bool
  /-- The driver service is registered and may be opened. -/
  serviceOpens : Bool
  /-- Starting the service succeeds (and brings the device object up). -/
  serviceStarts : Bool
  /-- The embedded driver image can be found. -/
  resourcePresent : Bool
  /-- Files can be created in the driver directory. -/
  fileWritable : Bool
  /-- The map request succeeds. -/
  mapOk : Bool
  /-- The unmap request succeeds. -/
  unmapOk : Bool
  /-- File-system redirection is currently disabled. -/
  redirectionOff : Bool
  lastError : Nat
  /-- The byte the stub keeps for each port. -/
  ports : Nat → Nat
  /-- The 32-bit words of mapped memory, by linear address. -/
  mem : Nat → Nat

/-- Whether a handle denotes an open object in the simulation. -/
def Sim.validHandle (h : HANDLE) : Bool := h != NULL && h != INVALID_HANDLE_VALUE

/-- The simulated world as a `Win32` record. -/
def simOS : Win32 Sim where
  GetVersionEx := fun _ w => w.platform
  fnIsWow64Process := some (fun _ => (true, false))
  fnWow64Disable := fun w => ((true, some (if w.redirectionOff then 1 else 2)),
    { w with redirectionOff := true })
  fnWow64Revert := fun a w =>
    match a with
    | .value 1 => (true, { w with redirectionOff := true })
    | .value 2 => (true, { w with redirectionOff := false })
    | _ => (false, w)
  CreateFile := fun _ _ disposition _ w =>
    if disposition = OPEN_EXISTING then
      if w.deviceUp then (100, w) else (INVALID_HANDLE_VALUE, { w with lastError := 2 })
    else if w.fileWritable then (104, w)
    else (INVALID_HANDLE_VALUE, { w with lastError := 5 })
  WriteFile := fun _ _ _ w => w
  CloseHandle := fun _ w => w
  DeviceIoControl := fun h code inBuffer nOut w =>
    if Sim.validHandle h && w.deviceUp then
      match code with
      | .IOCTL_WRITE_PORT_UCHAR =>
        if 3 ≤ inBuffer.length then
          let port := inBuffer.getD 0 0 + 256 * inBuffer.getD 1 0
          ((true, []), { w with ports := fun q => if q = port then inBuffer.getD 2 0 else w.ports q })
        else ((false, []), w)
      | .IOCTL_READ_PORT_UCHAR =>
        if 2 ≤ inBuffer.length ∧ 1 ≤ nOut then
          ((true, [w.ports (inBuffer.getD 0 0 + 256 * inBuffer.getD 1 0)]), w)
        else ((false, []), w)
      | _ => ((false, []), w)
    else ((false, []), { w with lastError := 6 })
  DeviceIoControlPhys := fun h code inBuffer hasOut w =>
    if Sim.validHandle h && w.deviceUp then
      match code with
      | .IOCTL_WINIO_MAPPHYSTOLIN =>
        if w.mapOk && hasOut then
          ((true, some { inBuffer with PhysicalMemoryHandle := 7, pvPhysMemLin := 0x20000 }), w)
        else ((false, none), w)
      | .IOCTL_WINIO_UNMAPPHYSADDR => ((w.unmapOk, none), w)
      | _ => ((false, none), w)
    else ((false, none), { w with lastError := 6 })
  outp := fun port data w =>
    { w with ports := fun q => if q = port then (data % 256).toNat else w.ports q }
  inp := fun port w => ((w.ports port : Int), w)
  GetSystemDirectory := fun _ => "C:\\Windows\\System32"
  FindResource := fun _ w => if w.resourcePresent then 1 else 0
  LoadResource := fun h w => if h ≠ 0 ∧ w.resourcePresent then 2 else 0
  LockResource := fun g w => if g ≠ 0 ∧ w.resourcePresent then some [77, 90] else none
  SizeofResource := fun _ _ => 2
  OpenSCManager := fun access w =>
    if access = SC_MANAGER_ALL_ACCESS then
      if w.scmFullAccess then (1, w) else (0, { w with lastError := ERROR_ACCESS_DENIED })
    else
      if w.scmReadAccess then (2, w) else (0, { w with lastError := ERROR_ACCESS_DENIED })
  GetLastError := fun w => w.lastError
  OpenService := fun mgr _ _ w =>
    if mgr ≠ 0 ∧ w.serviceOpens then (3, w) else (0, { w with lastError := ERROR_ACCESS_DENIED })
  StartService := fun ser w =>
    if ser ≠ 0 ∧ w.serviceStarts then (true, { w with deviceUp := true })
    else (false, { w with lastError := 1058 })
  CreateService := fun mgr _ _ w =>
    if mgr ≠ 0 then (4, { w with serviceOpens := true }) else (0, w)
  CloseServiceHandle := fun _ w => w
  load32 := fun addr w => w.mem addr
  store32 := fun addr v w => { w with mem := fun a => if a = addr then v else w.mem a }

/-- A simulated NT host on which nothing is available yet: no device object, no
access to the service control manager, no service, no driver image. -/
def Sim.bare : Sim :=
  { platform := some VER_PLATFORM_WIN32_NT, deviceUp := false, scmFullAccess := false,
    scmReadAccess := false, serviceOpens := false, serviceStarts := false,
    resourcePresent := false, fileWritable := false, mapOk := false, unmapOk := false,
    redirectionOff := false, lastError := 0, ports := fun _ => 0, mem := fun _ => 0 }

/-- The build for 32-bit x86. -/
def Build.x86 : Build := { M_IX86 := true, M_X64 := false }

/-- The build for x64. -/
def Build.x64 : Build := { M_IX86 := false, M_X64 := true }

/-! ## Concrete inputs -/

/-- The `short` whose 16-bit pattern is `n`. -/
def toShort (n : Nat) : Int :=
  if n % 65536 < 32768 then (n % 65536 : Nat) else (n % 65536 : Nat) - 65536

/-- The request buffer of the last device-control call on a byte buffer, if
the last call made is one. -/
def lastRequest {σ : Type} (s : State σ) : Option (List Nat) :=
  match s.trace.getLast? with
  | some (.DeviceIoControl _ _ inBuffer _) => some inBuffer
  | _ => none

/-- Whether the calls made so far include the entry of a deployment
(`inst32` and `inst64` both begin with `GetSystemDirectory`, and nothing else calls it). -/
def deploymentAttempted {σ : Type} (s : State σ) : Bool :=
  s.trace.contains .GetSystemDirectory

/-- The number of attempts to open the device object made so far. -/
def deviceOpenAttempts {σ : Type} (s : State σ) : Nat :=
  s.trace.countP fun c =>
    match c with
    | .CreateFile _ _ disposition _ => disposition == OPEN_EXISTING
    | _ => false

/-- A limited user on an NT host where the service is installed: full access to
the service control manager is denied, read-only access is granted, the
service can be opened and started, the device object is not there yet. -/
def Sim.limitedUser : Sim :=
  { Sim.bare with scmReadAccess := true, serviceOpens := true, serviceStarts := true }

/-- An administrator on an NT host where the service is installed but not
running: every service-control call succeeds. -/
def Sim.administrator : Sim :=
  { Sim.bare with scmFullAccess := true, scmReadAccess := true, serviceOpens := true,
                  serviceStarts := true }

/-- A loaded library on an NT host (`sysver = 2`) before `Opendriver` has run. -/
def State.onNT (w : Sim) : State Sim := { State.init w with sysver := 2 }

/-- A library on an NT host whose `Opendriver` run failed on a bare system. -/
def State.failedOpen : State Sim := (Opendriver Build.x86 simOS false (State.onNT Sim.bare)).2

/-- A library on an NT host with the driver open against the stub. -/
def State.opened : State Sim :=
  (Opendriver Build.x86 simOS false
    (State.onNT { Sim.bare with deviceUp := true, mapOk := true })).2

/-- The state in which `Opendriver` calls `start` for the first time: the device
object has been tried once and the result stored in `hdriver`. -/
def afterFirstOpen {σ : Type} (os : Win32 σ) (bX64 : Bool) (s : State σ) : State σ :=
  let name := if bX64 then DRIVERNAMEx64 else DRIVERNAMEi386
  let szFileName := "\\\\.\\" ++ name
  let h := os.CreateFile szFileName (GENERIC_READ ||| GENERIC_WRITE) OPEN_EXISTING
    FILE_ATTRIBUTE_NORMAL s.os
  { s.call (.CreateFile szFileName (GENERIC_READ ||| GENERIC_WRITE) OPEN_EXISTING
      FILE_ATTRIBUTE_NORMAL) h.2 with hdriver := h.1 }

/-- The result of the unmap step inside `GetPhysLong`, run in the state that the
map step and the 4-byte read leave. -/
def unmapStepOfGet {σ : Type} (b : Build) (os : Win32 σ) (pbPhysAddr : Nat) (s : State σ) :
    Bool :=
  let m := MapPhysToLin b os pbPhysAddr 4 s
  (UnmapPhysicalMemory os (m.1.2.getD 0) m.1.1 (m.2.call (.load32 m.1.1) m.2.os)).1

/-- The result of the unmap step inside `SetPhysLong`, run in the state that the
map step and the 4-byte write leave. -/
def unmapStepOfSet {σ : Type} (b : Build) (os : Win32 σ) (pbPhysAddr dwPhysVal : Nat)
    (s : State σ) : Bool :=
  let m := MapPhysToLin b os pbPhysAddr 4 s
  (UnmapPhysicalMemory os (m.1.2.getD 0) m.1.1
    (m.2.call (.store32 m.1.1 (dwPhysVal % 4294967296))
      (os.store32 m.1.1 (dwPhysVal % 4294967296) m.2.os))).1

/-- A limited user on an NT host where the service is not registered: only the
read-only open of the service control manager succeeds. -/
def Sim.noService : Sim := { Sim.bare with scmReadAccess := true }

/-- An NT host with the driver running, where map requests succeed and unmap requests fail. -/
def Sim.unmapFails : Sim := { Sim.bare with deviceUp := true, mapOk := true, unmapOk := false }

/-- A library on an NT host with the driver open, where unmap requests fail. -/
def State.openedUnmapFails : State Sim :=
  (Opendriver Build.x86 simOS false (State.onNT Sim.unmapFails)).2

/-- The number of handle releases (`CloseHandle` calls) made so far. -/
def releases {σ : Type} (s : State σ) : Nat :=
  s.trace.countP fun c =>
    match c with
    | .CloseHandle _ => true
    | _ => false


/-- The number of calls of the OS primitive that disables file-system redirection made so far. -/
def disableCalls {σ : Type} (s : State σ) : Nat :=
  s.trace.countP fun c =>
    match c with
    | .Wow64DisableWow64FsRedirection => true
    | _ => false

/-- The arguments handed to the OS primitive that reverts file-system redirection, in
the order of the calls made so far. -/
def revertArgs {σ : Type} (s : State σ) : List PVOID :=
  s.trace.filterMap fun c =>
    match c with
    | .Wow64RevertWow64FsRedirection a => some a
    | _ => none

/-- An NT host on which deployment can go through: full access to the service control
manager, the driver image present, the driver directory writable, file-system
redirection in force. -/
def Sim.deployable : Sim :=
  { Sim.bare with scmFullAccess := true, resourcePresent := true, fileWritable := true }

/-! ## Frame lemmas: what the lifecycle helpers leave alone -/

theorem SystemVersion_hdriver {σ : Type} (os : Win32 σ) (s : State σ) :
    (SystemVersion os s).2.hdriver = s.hdriver := by
  unfold SystemVersion
  simp only []
  split
  · rfl
  · split <;> rfl

theorem SystemVersion_range {σ : Type} (os : Win32 σ) (s : State σ) :
    (SystemVersion os s).1 = 0 ∨ (SystemVersion os s).1 = 1 ∨ (SystemVersion os s).1 = 2 := by
  unfold SystemVersion
  simp only []
  split
  · split_ifs <;> simp
  · split
    · split_ifs <;> simp
    · simp

theorem start_hdriver {σ : Type} (os : Win32 σ) (n : String) (s : State σ) :
    (start os n s).2.hdriver = s.hdriver := by
  unfold start
  simp only [State.call]
  split_ifs <;> rfl

theorem registerService_hdriver {σ : Type} (os : Win32 σ) (n d : String) (s : State σ) :
    (registerService os n d s).2.hdriver = s.hdriver := by
  unfold registerService
  simp only [State.call]
  split_ifs <;> rfl

theorem inst32_hdriver {σ : Type} (os : Win32 σ) (s : State σ) :
    (inst32 os s).2.hdriver = s.hdriver := by
  unfold inst32
  simp only [registerService_hdriver, State.call]
  repeat' split
  all_goals rfl

theorem inst64_hdriver {σ : Type} (b : Build) (os : Win32 σ) (s : State σ) :
    (inst64 b os s).2.hdriver = s.hdriver := by
  unfold inst64
  simp only [registerService_hdriver, State.call, RevertWOW64, DisableWOW64]
  repeat' split
  all_goals rfl

/-- A run of `Opendriver` that reports failure leaves `hdriver` at `INVALID_HANDLE_VALUE`. -/
theorem Opendriver_failure_hdriver {σ : Type} (b : Build) (os : Win32 σ) (bX64 : Bool)
    (s : State σ) (h : (Opendriver b os bX64 s).1 ≠ 0) :
    (Opendriver b os bX64 s).2.hdriver = INVALID_HANDLE_VALUE := by
  unfold Opendriver at h ⊢
  simp only [] at h ⊢
  split_ifs at h ⊢ <;> simp_all [start_hdriver, inst32_hdriver, inst64_hdriver, State.call]

/-! ## Claims -/

/-- C1: `IsInpOutDriverOpen` classifies the system as 0, 1 or 2, and returns true
exactly when the classification is 1 (Legacy9x), or it is 2 (ModernNT) and `hdriver`
is neither `NULL` nor `INVALID_HANDLE_VALUE`; so it returns false for classification 0
whatever the handle, and false on ModernNT after any `Opendriver` run that reported failure. -/
theorem C1_IsInpOutDriverOpen_iff {σ : Type} (os : Win32 σ) (s : State σ) :
    ((SystemVersion os s).1 = 0 ∨ (SystemVersion os s).1 = 1 ∨ (SystemVersion os s).1 = 2) ∧
    ((IsInpOutDriverOpen os s).1 = true ↔
      ((SystemVersion os s).1 = 1 ∨
        ((SystemVersion os s).1 = 2 ∧ s.hdriver ≠ NULL ∧ s.hdriver ≠ INVALID_HANDLE_VALUE))) ∧
    ((SystemVersion os s).1 = 0 → (IsInpOutDriverOpen os s).1 = false) ∧
    (∀ (b : Build) (bX64 : Bool) (s0 : State σ),
      (Opendriver b os bX64 s0).1 ≠ 0 →
      (SystemVersion os (Opendriver b os bX64 s0).2).1 = 2 →
      (IsInpOutDriverOpen os (Opendriver b os bX64 s0).2).1 = false) := by
  have key : ∀ t : State σ, (IsInpOutDriverOpen os t).1 = true ↔
      ((SystemVersion os t).1 = 1 ∨
        ((SystemVersion os t).1 = 2 ∧ t.hdriver ≠ NULL ∧ t.hdriver ≠ INVALID_HANDLE_VALUE)) := by
    intro t
    have hh := SystemVersion_hdriver os t
    unfold IsInpOutDriverOpen
    simp only []
    split_ifs with h2 h3 h1
    · simp_all
    · simp_all
      tauto
    · simp_all
    · simp_all
  refine ⟨SystemVersion_range os s, key s, ?_, ?_⟩
  · intro h0
    have := key s
    cases hr : (IsInpOutDriverOpen os s).1
    · rfl
    · rw [hr] at this
      have := this.mp rfl
      omega
  · intro b bX64 s0 hfail hnt
    have := key (Opendriver b os bX64 s0).2
    have hinv := Opendriver_failure_hdriver b os bX64 s0 hfail
    cases hr : (IsInpOutDriverOpen os (Opendriver b os bX64 s0).2).1
    · rfl
    · rw [hr] at this
      have := this.mp rfl
      rcases this with h | ⟨_, _, h⟩
      · omega
      · exact absurd hinv h

/-- Witness for C1: on the simulated NT host, after a failed `Opendriver`. -/
theorem C1_IsInpOutDriverOpen_iff_witness :
    (IsInpOutDriverOpen simOS (Opendriver Build.x86 simOS false (State.onNT Sim.bare)).2).1
      = false :=
  (C1_IsInpOutDriverOpen_iff simOS (State.onNT Sim.bare)).2.2.2 Build.x86 false
    (State.onNT Sim.bare) (by decide) (by decide)

theorem LOWORD_toShort (P : Nat) (hP : P < 65536) : LOWORD (toShort P) = P := by
  unfold LOWORD toShort
  split_ifs <;> omega

theorem LOBYTE_toShort (V : Nat) (hV : V < 256) : LOBYTE (toShort V) = V := by
  unfold LOBYTE toShort
  split_ifs <;> omega

/-- C2 as stated fails: after the failed `Opendriver` run on the simulated NT host the
device-control call fails and stores nothing, yet the reads of port `0x378` return
`0x78` (byte reads) and `0x378` (word and longword reads), not zero. -/
theorem C2_failed_read_returns_zero_counterexample :
    State.failedOpen.sysver = 2 ∧
    State.failedOpen.hdriver = INVALID_HANDLE_VALUE ∧
    (simOS.DeviceIoControl State.failedOpen.hdriver .IOCTL_READ_PORT_UCHAR [0x78, 0x03] 1
      State.failedOpen.os).1 = (false, []) ∧
    (Inp32 Build.x86 simOS 0x378 State.failedOpen).1 = 0x78 ∧
    (Inp32 Build.x86 simOS 0x378 State.failedOpen).1 ≠ 0 ∧
    (DlPortReadPortUchar Build.x86 simOS 0x378 State.failedOpen).1 = 0x78 ∧
    (DlPortReadPortUshort simOS 0x378 State.failedOpen).1 = 0x378 ∧
    (DlPortReadPortUlong simOS 0x378 State.failedOpen).1 = 0x378 := by
  decide

/-- C2, amended: on ModernNT, for every port, each read issues one device-control
request, and when that request fails and the driver stores nothing in the response
buffer, the read returns what the request left in the shared buffer: `Inp32` and
`DlPortReadPortUchar` return the low byte of the port, `DlPortReadPortUshort` the 16-bit
port, `DlPortReadPortUlong` the 32-bit port.  Each read depends only on the outcome of
its own request; `Inp32` also fetches the error code for its debug message. -/
theorem C2_failed_read_echoes_port {σ : Type} (b : Build) (os : Win32 σ) (s : State σ)
    (hnt : s.sysver = 2) (PortAddress : Int) (port : Nat) :
    ((os.DeviceIoControl s.hdriver .IOCTL_READ_PORT_UCHAR
        [LOWORD PortAddress % 256, LOWORD PortAddress / 256 % 256] 1 s.os).1 = (false, []) →
      (Inp32 b os PortAddress s).1 = ((LOWORD PortAddress % 256 : Nat) : Int) ∧
      (Inp32 b os PortAddress s).2.trace = s.trace ++
        [.DeviceIoControl s.hdriver .IOCTL_READ_PORT_UCHAR
          [LOWORD PortAddress % 256, LOWORD PortAddress / 256 % 256] 1, .GetLastError]) ∧
    ((os.DeviceIoControl s.hdriver .IOCTL_READ_PORT_UCHAR
        [port % 256, port / 256 % 256, 0] 3 s.os).1 = (false, []) →
      (DlPortReadPortUchar b os port s).1 = port % 256) ∧
    ((os.DeviceIoControl s.hdriver .IOCTL_READ_PORT_USHORT
        [port % 256, port / 256 % 256] 2 s.os).1 = (false, []) →
      (DlPortReadPortUshort os port s).1 = port % 65536) ∧
    ((os.DeviceIoControl s.hdriver .IOCTL_READ_PORT_ULONG
        [port % 256, port / 256 % 256, port / 65536 % 256, port / 16777216 % 256] 4
        s.os).1 = (false, []) →
      (DlPortReadPortUlong os port s).1 = port % 4294967296) ∧
    (DlPortReadPortUchar b os port s).2.trace = s.trace ++
      [.DeviceIoControl s.hdriver .IOCTL_READ_PORT_UCHAR [port % 256, port / 256 % 256, 0] 3] ∧
    (DlPortReadPortUshort os port s).2.trace = s.trace ++
      [.DeviceIoControl s.hdriver .IOCTL_READ_PORT_USHORT [port % 256, port / 256 % 256] 2] ∧
    (DlPortReadPortUlong os port s).2.trace = s.trace ++
      [.DeviceIoControl s.hdriver .IOCTL_READ_PORT_ULONG
        [port % 256, port / 256 % 256, port / 65536 % 256, port / 16777216 % 256] 4] := by
  refine ⟨?_, ?_, ?_, ?_, ?_, ?_, ?_⟩
  · intro hfail
    simp only [Inp32, hnt, store16, State.call, writeBack] at hfail ⊢
    simp at hfail ⊢
    simp [hfail]
  · intro hfail
    simp only [DlPortReadPortUchar, hnt, store16, State.call, writeBack] at hfail ⊢
    simp at hfail ⊢
    simp [hfail]
  · intro hfail
    simp only [DlPortReadPortUshort, hnt, store16, State.call, writeBack, load16] at hfail ⊢
    simp at hfail ⊢
    simp [hfail]
    omega
  · intro hfail
    simp only [DlPortReadPortUlong, hnt, store32le, State.call, writeBack, load32le] at hfail ⊢
    simp at hfail ⊢
    simp [hfail]
    omega
  · simp [DlPortReadPortUchar, hnt, store16, State.call]
  · simp [DlPortReadPortUshort, hnt, store16, State.call]
  · simp [DlPortReadPortUlong, hnt, store32le, State.call]

/-- Witness for C2 (amended): port `0x378`, in the failed-open state of the simulated NT
host, where every request fails, and with the driver open against the stub, where only
the word and longword read requests fail. -/
theorem C2_failed_read_echoes_port_witness :
    (Inp32 Build.x86 simOS 0x378 State.failedOpen).1 = ((LOWORD 0x378 % 256 : Nat) : Int) ∧
    (DlPortReadPortUchar Build.x86 simOS 0x378 State.failedOpen).1 = 0x378 % 256 ∧
    (DlPortReadPortUshort simOS 0x378 State.failedOpen).1 = 0x378 % 65536 ∧
    (DlPortReadPortUlong simOS 0x378 State.failedOpen).1 = 0x378 % 4294967296 ∧
    (DlPortReadPortUshort simOS 0x378 State.opened).1 = 0x378 % 65536 ∧
    (DlPortReadPortUlong simOS 0x378 State.opened).1 = 0x378 % 4294967296 :=
  ⟨((C2_failed_read_echoes_port Build.x86 simOS State.failedOpen (by decide) 0x378 0x378).1
      (by decide)).1,
   (C2_failed_read_echoes_port Build.x86 simOS State.failedOpen (by decide) 0x378 0x378).2.1
      (by decide),
   (C2_failed_read_echoes_port Build.x86 simOS State.failedOpen (by decide) 0x378 0x378).2.2.1
      (by decide),
   (C2_failed_read_echoes_port Build.x86 simOS State.failedOpen (by decide) 0x378 0x378).2.2.2.1
      (by decide),
   (C2_failed_read_echoes_port Build.x86 simOS State.opened (by decide) 0x378 0x378).2.2.1
      (by decide),
   (C2_failed_read_echoes_port Build.x86 simOS State.opened (by decide) 0x378 0x378).2.2.2.1
      (by decide)⟩

/-- C3 as stated fails: the request that `DlPortWritePortUshort(0x378, 0x1234)` hands to
the device-control call is the five bytes `[0x78, 0x03, 0x34, 0x12, 0x00]`, not the four
bytes `[0x78, 0x03, 0x34, 0x12]`. -/
theorem C3_write_word_request_counterexample :
    lastRequest (DlPortWritePortUshort simOS 0x378 0x1234 State.opened)
      = some [0x78, 0x03, 0x34, 0x12, 0x00] ∧
    lastRequest (DlPortWritePortUshort simOS 0x378 0x1234 State.opened)
      ≠ some [0x78, 0x03, 0x34, 0x12] := by
  decide

/-- C3, amended: on ModernNT, for every 16-bit port `p` and 16-bit value `v`,
`DlPortWritePortUshort` issues exactly one device-control call, a word-write request on
`hdriver` with no output buffer, whose request buffer over the full input length is the
five bytes `[p mod 256, p div 256, v mod 256, v div 256, 0]`. -/
theorem C3_write_word_request {σ : Type} (os : Win32 σ) (s : State σ) (p v : Nat)
    (hnt : s.sysver = 2) (hp : p < 65536) (hv : v < 65536) :
    (DlPortWritePortUshort os p v s).trace = s.trace ++
      [.DeviceIoControl s.hdriver .IOCTL_WRITE_PORT_USHORT
        [p % 256, p / 256, v % 256, v / 256, 0] 0] ∧
    lastRequest (DlPortWritePortUshort os p v s)
      = some [p % 256, p / 256, v % 256, v / 256, 0] := by
  have h1 : LOWORD (p : Int) % 256 = p % 256 := by unfold LOWORD; omega
  have h2 : LOWORD (p : Int) / 256 % 256 = p / 256 := by unfold LOWORD; omega
  have h3 : v / 256 % 256 = v / 256 := by omega
  have ht : (DlPortWritePortUshort os p v s).trace = s.trace ++
      [.DeviceIoControl s.hdriver .IOCTL_WRITE_PORT_USHORT
        [p % 256, p / 256, v % 256, v / 256, 0] 0] := by
    simp [DlPortWritePortUshort, hnt, store16, State.call, h1, h2, h3]
  refine ⟨ht, ?_⟩
  simp [lastRequest, ht]

/-- Witness for C3 (amended): port `0x378`, value `0x1234`, driver open against the stub. -/
theorem C3_write_word_request_witness :
    (DlPortWritePortUshort simOS 0x378 0x1234 State.opened).trace = State.opened.trace ++
      [.DeviceIoControl State.opened.hdriver .IOCTL_WRITE_PORT_USHORT
        [0x378 % 256, 0x378 / 256, 0x1234 % 256, 0x1234 / 256, 0] 0] ∧
    lastRequest (DlPortWritePortUshort simOS 0x378 0x1234 State.opened)
      = some [0x378 % 256, 0x378 / 256, 0x1234 % 256, 0x1234 / 256, 0] :=
  C3_write_word_request simOS State.opened 0x378 0x1234 (by decide) (by decide) (by decide)

/-- C4: on ModernNT with the driver open against the stub, for every 16-bit port `P` and
8-bit value `V`, writing `V` to `P` stores `V` at port `P` of the stub and reading `P`
back returns `V`, for the pair `Out32`/`Inp32` (called with the `short` arguments whose
bit patterns are `P` and `V`) and for the pair `DlPortWritePortUchar`/`DlPortReadPortUchar`. -/
theorem C4_write_then_read_byte (b : Build) (s : State Sim) (P V : Nat)
    (hnt : s.sysver = 2) (hopen : Sim.validHandle s.hdriver = true)
    (hup : s.os.deviceUp = true) (hP : P < 65536) (hV : V < 256) :
    (Inp32 b simOS (toShort P) (Out32 b simOS (toShort P) (toShort V) s)).1 = (V : Int) ∧
    (Out32 b simOS (toShort P) (toShort V) s).os.ports P = V ∧
    (DlPortReadPortUchar b simOS P (DlPortWritePortUchar b simOS P V s)).1 = V ∧
    (DlPortWritePortUchar b simOS P V s).os.ports P = V := by
  have e1 : P % 256 + 256 * (P / 256 % 256) = P := by omega
  have e2 : V % 256 = V := by omega
  refine ⟨?_, ?_, ?_, ?_⟩
  · simp [Inp32, Out32, hnt, hopen, hup, simOS, State.call, writeBack, store16,
      LOWORD_toShort P hP, LOBYTE_toShort V hV, e1, e2]
  · simp [Out32, hnt, hopen, hup, simOS, State.call, store16,
      LOWORD_toShort P hP, LOBYTE_toShort V hV, e1]
  · simp [DlPortReadPortUchar, DlPortWritePortUchar, hnt, hopen, hup, simOS, State.call,
      writeBack, store16, e1, e2]
  · simp [DlPortWritePortUchar, hnt, hopen, hup, simOS, State.call, store16, e1, e2]

/-- Witness for C4: port `0xFFFF`, value `0xA5`, driver open against the stub. -/
theorem C4_write_then_read_byte_witness :
    (Inp32 Build.x86 simOS (toShort 0xFFFF)
      (Out32 Build.x86 simOS (toShort 0xFFFF) (toShort 0xA5) State.opened)).1 = (0xA5 : Int) ∧
    (Out32 Build.x86 simOS (toShort 0xFFFF) (toShort 0xA5) State.opened).os.ports 0xFFFF = 0xA5 ∧
    (DlPortReadPortUchar Build.x86 simOS 0xFFFF
      (DlPortWritePortUchar Build.x86 simOS 0xFFFF 0xA5 State.opened)).1 = 0xA5 ∧
    (DlPortWritePortUchar Build.x86 simOS 0xFFFF 0xA5 State.opened).os.ports 0xFFFF = 0xA5 :=
  C4_write_then_read_byte Build.x86 State.opened 0xFFFF 0xA5 (by decide) (by decide)
    (by decide) (by decide) (by decide)

/-- When the first `start` of an `Opendriver` run returns 0, the run ends at once: it
returns 1 in the state `start` left, without another attempt on the device object. -/
theorem Opendriver_first_start_success {σ : Type} (b : Build) (os : Win32 σ) (bX64 : Bool)
    (s : State σ)
    (hfail : (afterFirstOpen os bX64 s).hdriver = INVALID_HANDLE_VALUE)
    (hstart : (start os (if bX64 then DRIVERNAMEx64 else DRIVERNAMEi386)
      (afterFirstOpen os bX64 s)).1 = 0) :
    Opendriver b os bX64 s =
      (1, (start os (if bX64 then DRIVERNAMEx64 else DRIVERNAMEi386)
        (afterFirstOpen os bX64 s)).2) := by
  unfold afterFirstOpen at hfail hstart
  simp only [] at hfail hstart
  unfold Opendriver afterFirstOpen
  simp only []
  rw [if_pos hfail, if_neg (by simpa using hstart)]

/-- C5, the code at the failing input: for either bitness, on the simulated host where the
device object is absent, the full-access open of the service control manager is denied
with access-denied, and the read-only open, the execute-only service open and the
service start all succeed, `Opendriver` returns 1 with `hdriver = INVALID_HANDLE_VALUE`
and has entered deployment, although the service was started and the device object can
be opened afterwards. -/
theorem C5_limited_user_run :
    (simOS.CreateFile ("\\\\.\\" ++ DRIVERNAMEi386) (GENERIC_READ ||| GENERIC_WRITE)
      OPEN_EXISTING FILE_ATTRIBUTE_NORMAL Sim.limitedUser).1 = INVALID_HANDLE_VALUE ∧
    (simOS.OpenSCManager SC_MANAGER_ALL_ACCESS Sim.limitedUser).1 = 0 ∧
    simOS.GetLastError (simOS.OpenSCManager SC_MANAGER_ALL_ACCESS Sim.limitedUser).2
      = ERROR_ACCESS_DENIED ∧
    (simOS.OpenSCManager GENERIC_READ Sim.limitedUser).1 ≠ 0 ∧
    (simOS.OpenService 2 DRIVERNAMEi386 GENERIC_EXECUTE Sim.limitedUser).1 ≠ 0 ∧
    (simOS.StartService 3 Sim.limitedUser).1 = true ∧
    (Opendriver Build.x86 simOS false (State.onNT Sim.limitedUser)).1 = 1 ∧
    (Opendriver Build.x86 simOS false (State.onNT Sim.limitedUser)).2.hdriver
      = INVALID_HANDLE_VALUE ∧
    deploymentAttempted (Opendriver Build.x86 simOS false (State.onNT Sim.limitedUser)).2
      = true ∧
    (Opendriver Build.x86 simOS false (State.onNT Sim.limitedUser)).2.os.deviceUp = true ∧
    (Opendriver Build.x64 simOS true (State.onNT Sim.limitedUser)).1 = 1 ∧
    (Opendriver Build.x64 simOS true (State.onNT Sim.limitedUser)).2.hdriver
      = INVALID_HANDLE_VALUE ∧
    deploymentAttempted (Opendriver Build.x64 simOS true (State.onNT Sim.limitedUser)).2
      = true ∧
    (Opendriver Build.x64 simOS true (State.onNT Sim.limitedUser)).2.os.deviceUp = true := by
  decide

/-- C6, the code at the failing input: on the simulated host where the device object is
absent and every service-control call succeeds, the first `start` of the run returns 0,
and `Opendriver` then returns 1 with `hdriver = INVALID_HANDLE_VALUE` after a single
attempt on the device object, although an attempt made in the final state succeeds. -/
theorem C6_first_start_success_run :
    (afterFirstOpen simOS false (State.onNT Sim.administrator)).hdriver
      = INVALID_HANDLE_VALUE ∧
    (start simOS DRIVERNAMEi386 (afterFirstOpen simOS false (State.onNT Sim.administrator))).1
      = 0 ∧
    (Opendriver Build.x86 simOS false (State.onNT Sim.administrator)).1 = 1 ∧
    (Opendriver Build.x86 simOS false (State.onNT Sim.administrator)).2.hdriver
      = INVALID_HANDLE_VALUE ∧
    deviceOpenAttempts (Opendriver Build.x86 simOS false (State.onNT Sim.administrator)).2
      = 1 ∧
    (simOS.CreateFile ("\\\\.\\" ++ DRIVERNAMEi386) (GENERIC_READ ||| GENERIC_WRITE)
      OPEN_EXISTING FILE_ATTRIBUTE_NORMAL
      (Opendriver Build.x86 simOS false (State.onNT Sim.administrator)).2.os).1
      ≠ INVALID_HANDLE_VALUE := by
  decide

/-- C7 as stated fails: when the full-access open of the service control manager is
denied and the execute-only open of the service also fails, `start` returns 1, not 5;
and when the reduced-privilege start succeeds, `start` returns 1, not 0. -/
theorem C7_start_codes_counterexample :
    (simOS.OpenSCManager SC_MANAGER_ALL_ACCESS Sim.noService).1 = 0 ∧
    simOS.GetLastError (simOS.OpenSCManager SC_MANAGER_ALL_ACCESS Sim.noService).2
      = ERROR_ACCESS_DENIED ∧
    (simOS.OpenService 2 DRIVERNAMEi386 GENERIC_EXECUTE
      (simOS.OpenSCManager SC_MANAGER_ALL_ACCESS Sim.noService).2).1 = 0 ∧
    (start simOS DRIVERNAMEi386 (State.onNT Sim.noService)).1 = 1 ∧
    (start simOS DRIVERNAMEi386 (State.onNT Sim.noService)).1 ≠ 5 ∧
    (simOS.StartService 3 (simOS.OpenSCManager SC_MANAGER_ALL_ACCESS Sim.limitedUser).2).1
      = true ∧
    (start simOS DRIVERNAMEi386 (State.onNT Sim.limitedUser)).1 = 1 ∧
    (start simOS DRIVERNAMEi386 (State.onNT Sim.limitedUser)).1 ≠ 0 := by
  decide

/-- C7, amended: for every driver name and every behaviour of the service-control layer,
`start` returns 0 when the manager was opened with full access, the service was opened
and the start call succeeded, and returns 0 only when a start call succeeded; 3 when the
manager was opened with full access and the service was opened but the start call
failed; 4 when the full-access manager open was denied, the service was opened with
execute-only rights through the read-only manager, and that start failed; 1 when the
full-access manager open was denied and the execute-only open of the service failed. -/
theorem C7_start_codes {σ : Type} (os : Win32 σ) (pszDriver : String) (s : State σ) :
    let full := os.OpenSCManager SC_MANAGER_ALL_ACCESS s.os
    let serF := os.OpenService full.1 pszDriver SERVICE_ALL_ACCESS full.2
    let stF := os.StartService serF.1 serF.2
    let rd := os.OpenSCManager GENERIC_READ full.2
    let serR := os.OpenService rd.1 pszDriver GENERIC_EXECUTE rd.2
    let stR := os.StartService serR.1 serR.2
    (full.1 ≠ 0 → serF.1 ≠ 0 → stF.1 = true → (start os pszDriver s).1 = 0) ∧
    ((start os pszDriver s).1 = 0 →
      (full.1 ≠ 0 ∧ serF.1 ≠ 0 ∧ stF.1 = true) ∨
      (full.1 = 0 ∧ os.GetLastError full.2 = ERROR_ACCESS_DENIED ∧ serR.1 ≠ 0 ∧
        stR.1 = true)) ∧
    (full.1 ≠ 0 → serF.1 ≠ 0 → stF.1 = false → (start os pszDriver s).1 = 3) ∧
    (full.1 = 0 → os.GetLastError full.2 = ERROR_ACCESS_DENIED → serR.1 ≠ 0 →
      stR.1 = false → (start os pszDriver s).1 = 4) ∧
    (full.1 = 0 → os.GetLastError full.2 = ERROR_ACCESS_DENIED → serR.1 = 0 →
      (start os pszDriver s).1 = 1) := by
  intro full serF stF rd serR stR
  refine ⟨?_, ?_, ?_, ?_, ?_⟩
  · intro h1 h2 h3
    simp [start, State.call, full, serF, stF] at h1 h2 h3 ⊢
    simp [h1, h2, h3]
  · intro h
    simp only [start, State.call] at h
    split_ifs at h with c1 c2 c3 c4 c5 c6 <;> simp_all [full, serF, stF, rd, serR, stR]
  · intro h1 h2 h3
    simp [start, State.call, full, serF, stF] at h1 h2 h3 ⊢
    simp [h1, h2, h3]
  · intro h1 h2 h3 h4
    simp [start, State.call, full, rd, serR, stR] at h1 h2 h3 h4 ⊢
    simp [h1, h2, h3, h4]
  · intro h1 h2 h3
    simp [start, State.call, full, rd, serR] at h1 h2 h3 ⊢
    simp [h1, h2, h3]

/-- Witness for C7 (amended): the five cases on the simulated host. -/
theorem C7_start_codes_witness :
    (start simOS DRIVERNAMEi386 (State.onNT Sim.administrator)).1 = 0 ∧
    (start simOS DRIVERNAMEi386
      (State.onNT { Sim.administrator with serviceStarts := false })).1 = 3 ∧
    (start simOS DRIVERNAMEi386
      (State.onNT { Sim.limitedUser with serviceStarts := false })).1 = 4 ∧
    (start simOS DRIVERNAMEi386 (State.onNT Sim.noService)).1 = 1 :=
  ⟨(C7_start_codes simOS DRIVERNAMEi386 (State.onNT Sim.administrator)).1
      (by decide) (by decide) (by decide),
   (C7_start_codes simOS DRIVERNAMEi386
      (State.onNT { Sim.administrator with serviceStarts := false })).2.2.1
      (by decide) (by decide) (by decide),
   (C7_start_codes simOS DRIVERNAMEi386
      (State.onNT { Sim.limitedUser with serviceStarts := false })).2.2.2.1
      (by decide) (by decide) (by decide) (by decide),
   (C7_start_codes simOS DRIVERNAMEi386 (State.onNT Sim.noService)).2.2.2.2
      (by decide) (by decide) (by decide)⟩

/-- C8: from every state, the first `Closedriver` leaves `hdriver = NULL`, makes at most
the one release of the handle it found, and none when it found `NULL`; the second
`Closedriver` changes nothing at all, so the state is still closed and no further call
(in particular no `CloseHandle`) is made. -/
theorem C8_Closedriver_idempotent {σ : Type} (os : Win32 σ) (s : State σ) :
    (Closedriver os s).hdriver = NULL ∧
    (Closedriver os (Closedriver os s)).hdriver = NULL ∧
    Closedriver os (Closedriver os s) = Closedriver os s ∧
    (Closedriver os (Closedriver os s)).trace = (Closedriver os s).trace ∧
    releases (Closedriver os (Closedriver os s)) = releases (Closedriver os s) ∧
    (Closedriver os s).trace
      = (if s.hdriver = NULL then s.trace else s.trace ++ [.CloseHandle s.hdriver]) ∧
    Closedriver os { s with hdriver := NULL } = { s with hdriver := NULL } := by
  have h1 : (Closedriver os s).hdriver = NULL := by
    unfold Closedriver
    split_ifs with h
    · rfl
    · simpa using h
  have h2 : Closedriver os (Closedriver os s) = Closedriver os s := by
    generalize Closedriver os s = t at h1
    unfold Closedriver
    simp [h1]
  refine ⟨h1, by rw [h2]; exact h1, h2, by rw [h2], by rw [h2], ?_, ?_⟩
  · unfold Closedriver
    split_ifs <;> simp_all [State.call]
  · simp [Closedriver]

/-- C9 as stated fails: on the simulated host where map requests succeed and unmap
requests fail, the map step of `GetPhysLong` and `SetPhysLong` succeeds, their unmap
step returns false, and both operations return true. -/
theorem C9_unmap_failure_counterexample :
    State.openedUnmapFails.sysver = 2 ∧
    (MapPhysToLin Build.x86 simOS 0x1000 4 State.openedUnmapFails).1.1 ≠ 0 ∧
    unmapStepOfGet Build.x86 simOS 0x1000 State.openedUnmapFails = false ∧
    (GetPhysLong Build.x86 simOS 0x1000 State.openedUnmapFails).1.1 = true ∧
    unmapStepOfSet Build.x86 simOS 0x1000 0xCAFE State.openedUnmapFails = false ∧
    (SetPhysLong Build.x86 simOS 0x1000 0xCAFE State.openedUnmapFails).1 = true := by
  decide

/-- C9, amended: `GetPhysLong` and `SetPhysLong` are composed as map, one 4-byte access,
unmap; for every physical address (and value) they return true exactly when the OS is
ModernNT and the map step returned a non-null address, whatever the unmap step returns;
when they return true the state they leave is the one the unmap step leaves, and
`GetPhysLong` stores the word read at the mapped address. -/
theorem C9_phys_long_result {σ : Type} (b : Build) (os : Win32 σ) (pbPhysAddr dwPhysVal : Nat)
    (s : State σ) :
    ((GetPhysLong b os pbPhysAddr s).1.1 = true ↔
      (s.sysver = 2 ∧ (MapPhysToLin b os pbPhysAddr 4 s).1.1 ≠ 0)) ∧
    ((SetPhysLong b os pbPhysAddr dwPhysVal s).1 = true ↔
      (s.sysver = 2 ∧ (MapPhysToLin b os pbPhysAddr 4 s).1.1 ≠ 0)) ∧
    (GetPhysLong b os pbPhysAddr s =
      if s.sysver = 2 ∧ (MapPhysToLin b os pbPhysAddr 4 s).1.1 ≠ 0 then
        ((true, some (os.load32 (MapPhysToLin b os pbPhysAddr 4 s).1.1
            (MapPhysToLin b os pbPhysAddr 4 s).2.os)),
          (UnmapPhysicalMemory os ((MapPhysToLin b os pbPhysAddr 4 s).1.2.getD 0)
            (MapPhysToLin b os pbPhysAddr 4 s).1.1
            ((MapPhysToLin b os pbPhysAddr 4 s).2.call
              (.load32 (MapPhysToLin b os pbPhysAddr 4 s).1.1)
              (MapPhysToLin b os pbPhysAddr 4 s).2.os)).2)
      else ((false, none), (MapPhysToLin b os pbPhysAddr 4 s).2)) ∧
    (SetPhysLong b os pbPhysAddr dwPhysVal s =
      if s.sysver = 2 ∧ (MapPhysToLin b os pbPhysAddr 4 s).1.1 ≠ 0 then
        (true,
          (UnmapPhysicalMemory os ((MapPhysToLin b os pbPhysAddr 4 s).1.2.getD 0)
            (MapPhysToLin b os pbPhysAddr 4 s).1.1
            ((MapPhysToLin b os pbPhysAddr 4 s).2.call
              (.store32 (MapPhysToLin b os pbPhysAddr 4 s).1.1 (dwPhysVal % 4294967296))
              (os.store32 (MapPhysToLin b os pbPhysAddr 4 s).1.1 (dwPhysVal % 4294967296)
                (MapPhysToLin b os pbPhysAddr 4 s).2.os))).2)
      else (false, (MapPhysToLin b os pbPhysAddr 4 s).2)) := by
  have hm : s.sysver ≠ 2 → MapPhysToLin b os pbPhysAddr 4 s = ((0, none), s) := by
    intro h
    simp [MapPhysToLin, h]
  have hg : GetPhysLong b os pbPhysAddr s =
      if s.sysver = 2 ∧ (MapPhysToLin b os pbPhysAddr 4 s).1.1 ≠ 0 then
        ((true, some (os.load32 (MapPhysToLin b os pbPhysAddr 4 s).1.1
            (MapPhysToLin b os pbPhysAddr 4 s).2.os)),
          (UnmapPhysicalMemory os ((MapPhysToLin b os pbPhysAddr 4 s).1.2.getD 0)
            (MapPhysToLin b os pbPhysAddr 4 s).1.1
            ((MapPhysToLin b os pbPhysAddr 4 s).2.call
              (.load32 (MapPhysToLin b os pbPhysAddr 4 s).1.1)
              (MapPhysToLin b os pbPhysAddr 4 s).2.os)).2)
      else ((false, none), (MapPhysToLin b os pbPhysAddr 4 s).2) := by
    by_cases h : s.sysver = 2
    · by_cases h0 : (MapPhysToLin b os pbPhysAddr 4 s).1.1 = 0
      · simp [GetPhysLong, h, h0]
      · simp [GetPhysLong, h, h0]
    · simp [GetPhysLong, h, hm h]
  have hs : SetPhysLong b os pbPhysAddr dwPhysVal s =
      if s.sysver = 2 ∧ (MapPhysToLin b os pbPhysAddr 4 s).1.1 ≠ 0 then
        (true,
          (UnmapPhysicalMemory os ((MapPhysToLin b os pbPhysAddr 4 s).1.2.getD 0)
            (MapPhysToLin b os pbPhysAddr 4 s).1.1
            ((MapPhysToLin b os pbPhysAddr 4 s).2.call
              (.store32 (MapPhysToLin b os pbPhysAddr 4 s).1.1 (dwPhysVal % 4294967296))
              (os.store32 (MapPhysToLin b os pbPhysAddr 4 s).1.1 (dwPhysVal % 4294967296)
                (MapPhysToLin b os pbPhysAddr 4 s).2.os))).2)
      else (false, (MapPhysToLin b os pbPhysAddr 4 s).2) := by
    by_cases h : s.sysver = 2
    · by_cases h0 : (MapPhysToLin b os pbPhysAddr 4 s).1.1 = 0
      · simp [SetPhysLong, h, h0]
      · simp [SetPhysLong, h, h0]
    · simp [SetPhysLong, h, hm h]
  refine ⟨?_, ?_, hg, hs⟩
  · rw [hg]
    split_ifs with h <;> simp_all
  · rw [hs]
    split_ifs with h <;> simp_all

/-- C10: when `sysver = 0`, every operation of the port and memory surface returns
zero, the null address or false, stores nothing through its output pointers, and leaves
the whole state unchanged, so it makes no call at all: no device-control request, no
port instruction, no memory access. -/
theorem C10_unknown_os_noop {σ : Type} (b : Build) (os : Win32 σ) (s : State σ)
    (h0 : s.sysver = 0) (PortAddress data : Int) (port Value size handle : Nat) :
    Out32 b os PortAddress data s = s ∧
    DlPortWritePortUchar b os port Value s = s ∧
    DlPortWritePortUshort os port Value s = s ∧
    DlPortWritePortUlong os port Value s = s ∧
    Inp32 b os PortAddress s = (0, s) ∧
    DlPortReadPortUchar b os port s = (0, s) ∧
    DlPortReadPortUshort os port s = (0, s) ∧
    DlPortReadPortUlong os port s = (0, s) ∧
    MapPhysToLin b os port size s = ((0, none), s) ∧
    UnmapPhysicalMemory os handle port s = (false, s) ∧
    GetPhysLong b os port s = ((false, none), s) ∧
    SetPhysLong b os port Value s = (false, s) := by
  simp [Out32, DlPortWritePortUchar, DlPortWritePortUshort, DlPortWritePortUlong, Inp32,
    DlPortReadPortUchar, DlPortReadPortUshort, DlPortReadPortUlong, MapPhysToLin,
    UnmapPhysicalMemory, GetPhysLong, SetPhysLong, h0]

/-- Witness for C10: the freshly loaded library on the simulated host, port `0x378`. -/
theorem C10_unknown_os_noop_witness :
    Out32 Build.x86 simOS 0x378 0x55 (State.init Sim.bare) = State.init Sim.bare ∧
    DlPortWritePortUchar Build.x86 simOS 0x378 0x55 (State.init Sim.bare)
      = State.init Sim.bare ∧
    DlPortWritePortUshort simOS 0x378 0x55 (State.init Sim.bare) = State.init Sim.bare ∧
    DlPortWritePortUlong simOS 0x378 0x55 (State.init Sim.bare) = State.init Sim.bare ∧
    Inp32 Build.x86 simOS 0x378 (State.init Sim.bare) = (0, State.init Sim.bare) ∧
    DlPortReadPortUchar Build.x86 simOS 0x378 (State.init Sim.bare)
      = (0, State.init Sim.bare) ∧
    DlPortReadPortUshort simOS 0x378 (State.init Sim.bare) = (0, State.init Sim.bare) ∧
    DlPortReadPortUlong simOS 0x378 (State.init Sim.bare) = (0, State.init Sim.bare) ∧
    MapPhysToLin Build.x86 simOS 0x378 4 (State.init Sim.bare)
      = ((0, none), State.init Sim.bare) ∧
    UnmapPhysicalMemory simOS 7 0x378 (State.init Sim.bare) = (false, State.init Sim.bare) ∧
    GetPhysLong Build.x86 simOS 0x378 (State.init Sim.bare)
      = ((false, none), State.init Sim.bare) ∧
    SetPhysLong Build.x86 simOS 0x378 0x55 (State.init Sim.bare)
      = (false, State.init Sim.bare) :=
  C10_unknown_os_noop Build.x86 simOS (State.init Sim.bare) rfl 0x378 0x55 0x378 0x55 4 7

/-- On a native 64-bit build `DisableWOW64` returns true, stores nothing and leaves the
state unchanged: it calls no OS primitive. -/
theorem DisableWOW64_native {σ : Type} (b : Build) (os : Win32 σ) (s : State σ)
    (hb : b.M_X64 = true) : DisableWOW64 b os s = ((true, none), s) := by
  simp [DisableWOW64, hb]

/-- On a native 64-bit build `RevertWOW64` returns true and leaves the state unchanged:
it calls no OS primitive. -/
theorem RevertWOW64_native {σ : Type} (b : Build) (os : Win32 σ) (v : Option Nat)
    (s : State σ) (hb : b.M_X64 = true) : RevertWOW64 b os v s = (true, s) := by
  simp [RevertWOW64, hb]

/-- On any other build `RevertWOW64` makes one call of the revert primitive, and what it
hands over is the address of the caller's variable, never the value stored in it. -/
theorem RevertWOW64_argument {σ : Type} (b : Build) (os : Win32 σ) (v : Option Nat)
    (s : State σ) (hb : b.M_X64 = false) :
    (RevertWOW64 b os v s).2.trace
      = s.trace ++ [.Wow64RevertWow64FsRedirection (.addressOf v)] := by
  simp [RevertWOW64, hb, State.call]

theorem registerService_shim {σ : Type} (os : Win32 σ) (n d : String) (s : State σ) :
    disableCalls (registerService os n d s).2 = disableCalls s ∧
    revertArgs (registerService os n d s).2 = revertArgs s := by
  unfold registerService
  simp only [State.call, disableCalls, revertArgs]
  split_ifs <;> simp [List.countP_append, List.filterMap_append]

/-- On every path through `inst64` the calls of the disable primitive and of the revert
primitive come in pairs: either none of each is added, or exactly one of each. -/
theorem inst64_shim_paired {σ : Type} (b : Build) (os : Win32 σ) (s : State σ) :
    ∃ k, k ≤ 1 ∧ disableCalls (inst64 b os s).2 = disableCalls s + k ∧
      (revertArgs (inst64 b os s).2).length = (revertArgs s).length + k := by
  unfold inst64
  simp only [(registerService_shim _ _ _ _).1, (registerService_shim _ _ _ _).2]
  simp only [State.call, disableCalls, revertArgs, DisableWOW64, RevertWOW64]
  repeat' split
  all_goals first
    | (refine ⟨0, by decide, ?_⟩; simp [List.countP_append, List.filterMap_append]; done)
    | (refine ⟨1, by decide, ?_⟩; simp [List.countP_append, List.filterMap_append])

/-- C11, the code at the failing input: `inst64` in a 32-bit build on the simulated host
where deployment goes through.  The disable primitive is called once and produces the
token 2; the revert primitive is called once, after it, but is handed the address of the
variable holding the token instead of the token, so redirection, in force before
`inst64`, is still disabled after it.  In the native 64-bit build neither primitive is
called and the redirection state is unchanged. -/
theorem C11_inst64_revert_argument :
    Sim.deployable.redirectionOff = false ∧
    (simOS.fnWow64Disable Sim.deployable).1 = (true, some 2) ∧
    disableCalls (inst64 Build.x86 simOS (State.onNT Sim.deployable)).2 = 1 ∧
    revertArgs (inst64 Build.x86 simOS (State.onNT Sim.deployable)).2
      = [.addressOf (some 2)] ∧
    revertArgs (inst64 Build.x86 simOS (State.onNT Sim.deployable)).2 ≠ [.value 2] ∧
    (inst64 Build.x86 simOS (State.onNT Sim.deployable)).2.os.redirectionOff = true ∧
    (simOS.fnWow64Revert (.value 2)
      (simOS.fnWow64Disable Sim.deployable).2).2.redirectionOff = false ∧
    disableCalls (inst64 Build.x64 simOS (State.onNT Sim.deployable)).2 = 0 ∧
    revertArgs (inst64 Build.x64 simOS (State.onNT Sim.deployable)).2 = [] ∧
    (inst64 Build.x64 simOS (State.onNT Sim.deployable)).2.os.redirectionOff = false := by
  decide

end InpOut
